import Mathlib

/-!
Verification of the DLFS lost-and-found record store
(src/Classes/dlfs.py) against its natural-language specification.

The embedding models:
  * the three record kinds (accounts, items, claims) as structures whose
    fields mirror the Python dictionaries produced by `__dict__` and by the
    seeded JSON;
  * the `data/` directory as a `Storage` value with one optional file per
    collection; `none` models a missing file, `FileData.garbage` models a
    file whose content `json.load` cannot parse, `FileData.json rs` models
    a file holding a JSON array that parses back to the records `rs`;
  * `load_data` / `save_data` and the module-level bootstrap loop
    (dlfs.py lines 14-35);
  * the `DLFSController` methods as state-transformer functions on a
    `DLFSState` bundling the controller's in-memory lists with the disk.

Calls to `random.randint(1000, 9999)` are modelled by an explicit `Nat`
argument; theorems that depend on the range carry `1000 ≤ n ∧ n ≤ 9999`
as a hypothesis.
-/

namespace DLFS

/-- Python values used as account ids: the seeded accounts carry the
integers 1 and 2, while the admin menu passes the raw `input()` string. -/
inductive PyId where
  | int : Int → PyId
  | str : String → PyId
deriving DecidableEq, Repr

/-- An account record. The Python `User.__dict__` stores the id under key
`user_id` while the seeded JSON uses key `id`; no verified property
depends on the key name, so the embedding uses a single `id` field. -/
structure User where
  id : PyId
  name : String
  email : String
  password : String
  role : String
deriving DecidableEq, Repr

/-- An item record, mirroring `ReportedItem.__dict__` (dlfs.py lines
78-87). Note there is no reporter field. -/
structure ReportedItem where
  item_id : String
  name : String
  description : String
  location : String
  item_type : String
  status : String
deriving DecidableEq, Repr

/-- A claim record, mirroring `Claim.__dict__` (dlfs.py lines 89-96). -/
structure Claim where
  claim_id : String
  user_id : PyId
  item_id : String
  status : String
deriving DecidableEq, Repr

/-- Content of one JSON file: either a parseable JSON array of records, or
content that `json.load` rejects with `JSONDecodeError`. -/
inductive FileData (α : Type) where
  | json : List α → FileData α
  | garbage : FileData α
deriving DecidableEq

/-- The `data/` directory: one optional file per collection
(`users.json`, `items.json`, `claims.json`); `none` means the file does
not exist. -/
structure Storage where
  users : Option (FileData User)
  items : Option (FileData ReportedItem)
  claims : Option (FileData Claim)
deriving DecidableEq

/-- dlfs.py lines 39-46. `load_data` opens the file and parses it; the
`try` block only catches `json.JSONDecodeError`, so a missing file makes
`open` raise `FileNotFoundError`, which the embedding renders as
`Except.error`. Unparseable content returns the empty list. -/
def load_data {α : Type} : Option (FileData α) → Except String (List α)
  | none => .error "FileNotFoundError"
  | some (.json rs) => .ok rs
  | some .garbage => .ok []

/-- dlfs.py lines 49-53: overwrite the file with the JSON dump of `data`. -/
def save_data {α : Type} (data : List α) : Option (FileData α) :=
  some (.json data)

/-- The default admin account seeded into users.json (dlfs.py lines 20-25). -/
def seedAdmin : User :=
  { id := .int 1, name := "Admin", email := "admin@dlfs.com",
    password := "admin123", role := "admin" }

/-- The default regular account seeded into users.json (dlfs.py lines 26-32). -/
def seedUser : User :=
  { id := .int 2, name := "User", email := "User@dlfs.com",
    password := "user123", role := "user" }

/-- The module-level loop of dlfs.py lines 14-35: for each of the three
files, if it does not exist, create it — users.json with the two seeded
accounts, items.json and claims.json with an empty array. Existing files
are left untouched. -/
def bootstrap (s : Storage) : Storage :=
  { users :=
      match s.users with
      | none => some (.json [seedAdmin, seedUser])
      | some f => some f,
    items :=
      match s.items with
      | none => some (.json [])
      | some f => some f,
    claims :=
      match s.claims with
      | none => some (.json [])
      | some f => some f }

/-- The state a `DLFSController` instance acts on: its three in-memory
lists (`self.users`, `self.items`, `self.claims`) together with the
content of the `data/` directory it reads and writes. -/
structure DLFSState where
  users : List User
  items : List ReportedItem
  claims : List Claim
  disk : Storage
deriving DecidableEq

/-- dlfs.py lines 107-111, `DLFSController.__init__`: load the three
collections from disk into memory. Propagates the `FileNotFoundError`
of `load_data` when a file is missing. -/
def controllerInit (s : Storage) : Except String DLFSState :=
  match load_data s.users with
  | .error e => .error e
  | .ok us =>
    match load_data s.items with
    | .error e => .error e
    | .ok its =>
      match load_data s.claims with
      | .error e => .error e
      | .ok cls => .ok { users := us, items := its, claims := cls, disk := s }

/-- dlfs.py lines 113-117, `save_all`: write all three in-memory lists
back to their files. -/
def save_all (st : DLFSState) : DLFSState :=
  { st with
    disk := { users := save_data st.users, items := save_data st.items,
              claims := save_data st.claims } }

/-- dlfs.py lines 119-127, `login`: linear scan over `self.users`,
returning the first record whose email and password both match, else
`None`. (The `"email" in user and "password" in user` guard is always
satisfied here because every embedded record carries both fields.) -/
def login (users : List User) (email password : String) : Option User :=
  match users with
  | [] => none
  | u :: rest =>
    if u.email == email && u.password == password then some u
    else login rest email password

/-- dlfs.py lines 129-135, `add_user`: build a `User` from the arguments
verbatim (no role validation happens here), re-load users.json from
disk, append, save, and refresh `self.users` from the saved file. -/
def add_user (st : DLFSState) (user_id : PyId)
    (name email password role : String) : Except String DLFSState :=
  let new_user : User :=
    { id := user_id, name := name, email := email, password := password,
      role := role }
  match load_data st.disk.users with
  | .error e => .error e
  | .ok users =>
    let users2 := users ++ [new_user]
    let disk2 : Storage := { st.disk with users := save_data users2 }
    match load_data disk2.users with
    | .error e => .error e
    | .ok refreshed => .ok { st with users := refreshed, disk := disk2 }

/-- dlfs.py lines 138-143, `report_item`: build a `ReportedItem` with a
fresh id `ITEM-<n>` (where `n` models the `random.randint(1000, 9999)`
draw) and status `reported`, append it to `self.items`, persist via
`save_all`, and return the generated id. The `user_id` argument is
accepted but not stored anywhere. -/
def report_item (st : DLFSState) (name description location item_type : String)
    (_user_id : PyId) (n : Nat) : DLFSState × String :=
  let item : ReportedItem :=
    { item_id := "ITEM-" ++ toString n, name := name,
      description := description, location := location,
      item_type := item_type, status := "reported" }
  (save_all { st with items := st.items ++ [item] }, item.item_id)

/-- Python `str.lower()`, restricted to the ASCII behaviour of
`Char.toLower`: lower-case every character of the string. -/
def pyLower (s : String) : String :=
  String.mk (s.data.map Char.toLower)

/-- Python's `startswith` on character lists: `pat` is an initial segment
of `s`. -/
def startsWithL : List Char → List Char → Bool
  | [], _ => true
  | _ :: _, [] => false
  | p :: ps, c :: cs => p == c && startsWithL ps cs

/-- Python's substring operator `pat in s` on character lists: `pat`
occurs contiguously somewhere in `s`. -/
def containsSub (pat : List Char) : List Char → Bool
  | [] => startsWithL pat []
  | c :: cs => startsWithL pat (c :: cs) || containsSub pat cs

/-- Python `sub in s` on strings. -/
def strIn (sub s : String) : Bool :=
  containsSub sub.data s.data

/-- dlfs.py lines 147-149, `search_items_name`: keep the items whose
lowercased name contains the lowercased keyword as a substring. -/
def search_items_name (st : DLFSState) (keyword : String) : List ReportedItem :=
  st.items.filter (fun item => strIn (pyLower keyword) (pyLower item.name))

/-- dlfs.py lines 151-153, `search_items_location`. -/
def search_items_location (st : DLFSState) (location : String) : List ReportedItem :=
  st.items.filter (fun item => strIn (pyLower location) (pyLower item.location))

/-- dlfs.py lines 155-157, `search_items_type`. -/
def search_items_type (st : DLFSState) (item_type : String) : List ReportedItem :=
  st.items.filter (fun item => strIn (pyLower item_type) (pyLower item.item_type))

/-- dlfs.py lines 160-165, `claim_item`: build a `Claim` with fresh id
`CLM-<n>` and status `pending` referencing `user_id` and `item_id`
(no check that the item exists), append, persist, return the id. -/
def claim_item (st : DLFSState) (user_id : PyId) (item_id : String)
    (n : Nat) : DLFSState × String :=
  let claim : Claim :=
    { claim_id := "CLM-" ++ toString n, user_id := user_id,
      item_id := item_id, status := "pending" }
  (save_all { st with claims := st.claims ++ [claim] }, claim.claim_id)

/-- The inner loop of `approve_claim` (dlfs.py lines 173-175): set the
status of every item whose id matches `iid` to `claimed`, with no break
and no look at the current status. -/
def mark_items_claimed (items : List ReportedItem) (iid : String) : List ReportedItem :=
  items.map (fun item =>
    if item.item_id == iid then { item with status := "claimed" } else item)

/-- The outer loop of `approve_claim` (dlfs.py lines 169-177): scan the
claims in order; at the first one whose id matches, set its status to
`approved`, update the items, and stop (the Python `return True` exits
the loop). Returns `none` when no claim matches. -/
def approve_scan (items : List ReportedItem) (cid : String) :
    List Claim → Option (List Claim × List ReportedItem)
  | [] => none
  | c :: cs =>
    if c.claim_id == cid then
      some ({ c with status := "approved" } :: cs,
            mark_items_claimed items c.item_id)
    else
      match approve_scan items cid cs with
      | none => none
      | some (cs2, its2) => some (c :: cs2, its2)

/-- dlfs.py lines 167-178, `approve_claim`: on a match, mutate the claim
and the items, persist via `save_all`, and return `True`; otherwise
return `False` without touching anything. -/
def approve_claim (st : DLFSState) (cid : String) : DLFSState × Bool :=
  match approve_scan st.items cid st.claims with
  | none => (st, false)
  | some (cs2, its2) =>
    (save_all { st with claims := cs2, items := its2 }, true)

/-- dlfs.py lines 331-341, `DLFSUI.add_user`: the admin menu lowercases
the role input and replaces anything outside {user, admin} by `user`
before delegating to the controller. The id is the raw `input()` string. -/
def ui_role (roleInput : String) : String :=
  let role := pyLower roleInput
  if role == "user" || role == "admin" then role else "user"

/-- The full admin-menu add-user path: normalise the role, then call the
controller's `add_user`. -/
def ui_add_user (st : DLFSState) (idStr name email password roleInput : String) :
    Except String DLFSState :=
  add_user st (.str idStr) name email password (ui_role roleInput)

/-- The empty data directory (first run). -/
def emptyStorage : Storage := { users := none, items := none, claims := none }

/-- Disk content after the module-level bootstrap on a first run. -/
def storage0 : Storage := bootstrap emptyStorage

/-- Controller state right after `DLFSController()` on a freshly
bootstrapped directory. -/
def state0 : DLFSState :=
  { users := [seedAdmin, seedUser], items := [], claims := [],
    disk := storage0 }

/-- Test fixture: an item whose status has already reached `returned`. -/
def returnedItem : ReportedItem :=
  { item_id := "ITEM-7777", name := "Hat", description := "Blue",
    location := "Gym", item_type := "found", status := "returned" }

/-- Test fixture: a pending claim referencing `returnedItem`. -/
def pendingClaim : Claim :=
  { claim_id := "CLM-7777", user_id := .int 2, item_id := "ITEM-7777",
    status := "pending" }

/-- Test fixture: a store holding `returnedItem` and `pendingClaim`,
with disk and memory in sync. -/
def wstate : DLFSState :=
  save_all { state0 with items := [returnedItem], claims := [pendingClaim] }

/-- Write-through consistency: the disk holds exactly the JSON dumps of
the three in-memory lists. -/
def consistent (st : DLFSState) : Prop :=
  st.disk = { users := some (.json st.users), items := some (.json st.items),
              claims := some (.json st.claims) }

instance (st : DLFSState) : Decidable (consistent st) := by
  unfold consistent; infer_instance

/-! Helper lemmas shared by the claim theorems. -/

/-- Characterisation of `startsWithL`: the pattern is an initial segment. -/
theorem startsWithL_iff (p s : List Char) :
    startsWithL p s = true ↔ ∃ t, s = p ++ t := by
  induction p generalizing s with
  | nil => simp [startsWithL]
  | cons a ps ih =>
    cases s with
    | nil => simp [startsWithL]
    | cons c cs =>
      simp only [startsWithL, Bool.and_eq_true, beq_iff_eq, ih, List.cons_append,
        List.cons.injEq]
      constructor
      · rintro ⟨rfl, t, rfl⟩; exact ⟨t, rfl, rfl⟩
      · rintro ⟨t, rfl, rfl⟩; exact ⟨rfl, t, rfl⟩

/-- Characterisation of `containsSub`: the pattern occurs contiguously. -/
theorem containsSub_iff (p s : List Char) :
    containsSub p s = true ↔ ∃ l1 l2, s = l1 ++ (p ++ l2) := by
  induction s with
  | nil =>
    simp only [containsSub, startsWithL_iff]
    constructor
    · rintro ⟨t, ht⟩; exact ⟨[], t, ht⟩
    · rintro ⟨l1, l2, h⟩
      rcases List.append_eq_nil.mp h.symm with ⟨h1, h2⟩
      exact ⟨l2, by simp [h2]⟩
  | cons c cs ih =>
    simp only [containsSub, Bool.or_eq_true, startsWithL_iff, ih]
    constructor
    · rintro (⟨t, ht⟩ | ⟨l1, l2, h⟩)
      · exact ⟨[], t, by simpa using ht⟩
      · exact ⟨c :: l1, l2, by simp [h]⟩
    · rintro ⟨l1, l2, h⟩
      cases l1 with
      | nil => exact Or.inl ⟨l2, by simpa using h⟩
      | cons x l1 =>
        simp only [List.cons_append, List.cons.injEq] at h
        exact Or.inr ⟨l1, l2, h.2⟩

/-- Characterisation of the Python substring operator on strings. -/
theorem strIn_iff (sub s : String) :
    strIn sub s = true ↔ ∃ l1 l2, s.data = l1 ++ (sub.data ++ l2) :=
  containsSub_iff sub.data s.data

/-- Decomposition of a successful linear search: the list splits around the
first element satisfying the predicate. -/
theorem find_decomp {α : Type} (p : α → Bool) (l : List α) (a : α)
    (h : l.find? p = some a) :
    ∃ l1 l2, l = l1 ++ a :: l2 ∧ (∀ b ∈ l1, p b = false) ∧ p a = true := by
  induction l with
  | nil => simp [List.find?] at h
  | cons x xs ih =>
    cases hpx : p x with
    | true =>
      rw [List.find?_cons_of_pos _ hpx] at h
      cases h
      exact ⟨[], xs, rfl, by simp, hpx⟩
    | false =>
      rw [List.find?_cons_of_neg _ (by simp [hpx])] at h
      obtain ⟨l1, l2, hl, h1, h2⟩ := ih h
      refine ⟨x :: l1, l2, by simp [hl], ?_, h2⟩
      intro b hb
      rcases List.mem_cons.mp hb with rfl | hb2
      · exact hpx
      · exact h1 b hb2

/-- The claim scan returns `none` when no claim id matches. -/
theorem approve_scan_none (items : List ReportedItem) (cid : String)
    (cs : List Claim) (h : ∀ c ∈ cs, c.claim_id ≠ cid) :
    approve_scan items cid cs = none := by
  induction cs with
  | nil => rfl
  | cons c rest ih =>
    have hc : (c.claim_id == cid) = false := by
      simp [h c (List.mem_cons_self c rest)]
    simp [approve_scan, hc, ih (fun d hd => h d (List.mem_cons_of_mem c hd))]

/-- The claim scan skips over an unmatched prefix. -/
theorem approve_scan_append (items : List ReportedItem) (cid : String)
    (l1 cs : List Claim) (h : ∀ c ∈ l1, c.claim_id ≠ cid) :
    approve_scan items cid (l1 ++ cs) =
      (approve_scan items cid cs).map (fun r => (l1 ++ r.1, r.2)) := by
  induction l1 with
  | nil =>
    cases hcs : approve_scan items cid cs with
    | none => simp [hcs]
    | some r => simp [hcs]
  | cons c rest ih =>
    have hc : (c.claim_id == cid) = false := by
      simp [h c (List.mem_cons_self c _)]
    have ih2 := ih (fun d hd => h d (List.mem_cons_of_mem c hd))
    simp only [List.cons_append, approve_scan, hc, Bool.false_eq_true, if_false,
      List.append_eq, ih2]
    cases approve_scan items cid cs with
    | none => rfl
    | some r => cases r; rfl

/-- The claim scan at a matching head approves that claim and marks the
matching items. -/
theorem approve_scan_cons_match (items : List ReportedItem) (cid : String)
    (c : Claim) (cs : List Claim) (h : c.claim_id = cid) :
    approve_scan items cid (c :: cs) =
      some ({ c with status := "approved" } :: cs,
            mark_items_claimed items c.item_id) := by
  simp [approve_scan, h]

/-- Marking leaves a list with no matching item unchanged. -/
theorem mark_items_claimed_no_match (items : List ReportedItem) (iid : String)
    (h : ∀ it ∈ items, it.item_id ≠ iid) :
    mark_items_claimed items iid = items := by
  unfold mark_items_claimed
  induction items with
  | nil => rfl
  | cons it rest ih =>
    have h1 : it.item_id ≠ iid := h it (List.mem_cons_self it rest)
    have ih2 := ih (fun d hd => h d (List.mem_cons_of_mem it hd))
    simp only [List.map_cons, ih2]
    simp [h1]

/-- Every matching item appears with status `claimed` after marking. -/
theorem mark_items_claimed_mem (items : List ReportedItem) (iid : String)
    (it : ReportedItem) (h1 : it ∈ items) (h2 : it.item_id = iid) :
    { it with status := "claimed" } ∈ mark_items_claimed items iid := by
  unfold mark_items_claimed
  refine List.mem_map.mpr ⟨it, h1, ?_⟩
  simp [h2]

/-- After `save_all` the disk holds exactly the in-memory lists. -/
theorem consistent_save_all (st : DLFSState) : consistent (save_all st) := rfl

/-- A successful claim scan determines the result of `approve_claim`. -/
theorem approve_claim_of_scan_some (st : DLFSState) (cid : String)
    (cs2 : List Claim) (its2 : List ReportedItem)
    (h : approve_scan st.items cid st.claims = some (cs2, its2)) :
    approve_claim st cid = (save_all { st with claims := cs2, items := its2 }, true) := by
  unfold approve_claim
  rw [h]

/-! Claim theorems. -/

/-- C5: the module-level bootstrap is idempotent; on a first run (no
stored files) it creates empty items and claims collections and a users
collection containing exactly two seeded accounts — one admin with id 1
and one regular user with id 2, with fixed default credentials — and a
second bootstrap run leaves exactly those two accounts. -/
theorem bootstrap_idempotent_two_seeds :
    (∀ s : Storage, bootstrap (bootstrap s) = bootstrap s) ∧
    bootstrap emptyStorage =
      { users := some (.json [seedAdmin, seedUser]),
        items := some (.json []), claims := some (.json []) } ∧
    [seedAdmin, seedUser].length = 2 ∧
    seedAdmin.id = .int 1 ∧ seedAdmin.role = "admin" ∧
    seedAdmin.email = "admin@dlfs.com" ∧ seedAdmin.password = "admin123" ∧
    seedUser.id = .int 2 ∧ seedUser.role = "user" ∧
    seedUser.email = "User@dlfs.com" ∧ seedUser.password = "user123" := by
  refine ⟨?_, rfl, rfl, rfl, rfl, rfl, rfl, rfl, rfl, rfl, rfl⟩
  intro s
  obtain ⟨u, i, c⟩ := s
  cases u <;> cases i <;> cases c <;> rfl

/-- C2 counterexample: on a missing file `load_data` propagates the
`FileNotFoundError` raised by `open` instead of returning the empty list,
because its `try` block only catches `json.JSONDecodeError`. -/
theorem load_data_missing_file_fails :
    load_data (none : Option (FileData ReportedItem)) =
      .error "FileNotFoundError" ∧
    load_data (none : Option (FileData ReportedItem)) ≠
      .ok ([] : List ReportedItem) :=
  ⟨rfl, fun hcontra => nomatch hcontra⟩

/-- C2 amended: `load_data` returns the parsed records when the file
holds a valid JSON array and the empty sequence when the content is
unparseable; when the file is absent it fails with `FileNotFoundError`
rather than returning the empty sequence. -/
theorem load_data_garbage_tolerant (α : Type) (rs : List α) :
    load_data (some (FileData.garbage : FileData α)) = .ok ([] : List α) ∧
    load_data (some (.json rs)) = .ok rs ∧
    load_data (none : Option (FileData α)) = .error "FileNotFoundError" :=
  ⟨rfl, rfl, rfl⟩

/-- C1 counterexample: calling the controller's `add_user` directly with
role `superuser` stores and persists that role verbatim — the controller
performs no role validation. -/
theorem add_user_stores_invalid_role :
    ∃ st2, add_user state0 (.int 3) "X" "x@x.com" "pw" "superuser" = .ok st2 ∧
      st2.users.map (fun u => u.role) = ["admin", "user", "superuser"] ∧
      st2.disk.users = some (.json st2.users) ∧
      "superuser" ∉ (["user", "admin"] : List String) := by
  refine ⟨_, rfl, ?_, ?_, ?_⟩ <;> decide

/-- C1 amended: role defaulting happens in the admin-menu path
(`ui_add_user`), which lowercases the role input and replaces anything
outside {user, admin} by `user` before delegating to the controller; an
account added through the menu therefore never carries an invalid role,
and the input `superuser` is stored as `user`. The controller's own
`add_user` stores the role argument verbatim. -/
theorem ui_add_user_defaults_role (st : DLFSState) (us : List User)
    (idStr nm em pw roleInput : String)
    (h : st.disk.users = some (.json us)) :
    ∃ st2, ui_add_user st idStr nm em pw roleInput = .ok st2 ∧
      st2.users = us ++ [{ id := .str idStr, name := nm, email := em,
                           password := pw, role := ui_role roleInput }] ∧
      st2.disk.users = some (.json st2.users) ∧
      (ui_role roleInput = "user" ∨ ui_role roleInput = "admin") ∧
      ui_role "superuser" = "user" := by
  have hrole : ui_role roleInput = "user" ∨ ui_role roleInput = "admin" := by
    unfold ui_role
    by_cases h2 : pyLower roleInput = "user"
    · simp [h2]
    · by_cases h3 : pyLower roleInput = "admin"
      · simp [h2, h3]
      · simp [h2, h3]
  have hstep : ui_add_user st idStr nm em pw roleInput = .ok
      { st with
        users := us ++ [{ id := PyId.str idStr, name := nm, email := em, password := pw, role := ui_role roleInput }],
        disk := { st.disk with users := save_data (us ++ [{ id := PyId.str idStr, name := nm, email := em, password := pw, role := ui_role roleInput }]) } } := by
    unfold ui_add_user add_user
    rw [h]
    rfl
  exact ⟨_, hstep, rfl, rfl, hrole, by decide⟩

/-- C1 amended, witness: the spec's example through the admin menu on a
freshly bootstrapped store. -/
theorem ui_add_user_defaults_role_witness :
    ∃ st2, ui_add_user state0 "3" "X" "x@x.com" "pw" "superuser" = .ok st2 ∧
      st2.users = [seedAdmin, seedUser] ++
        [{ id := .str "3", name := "X", email := "x@x.com", password := "pw",
           role := ui_role "superuser" }] := by
  obtain ⟨st2, h1, h2, -, -, -⟩ := ui_add_user_defaults_role state0
    [seedAdmin, seedUser] "3" "X" "x@x.com" "pw" "superuser" rfl
  exact ⟨st2, h1, h2⟩

/-- C4: approving a claim id that matches no existing claim returns false
and leaves the whole state — the three in-memory collections and the
disk — unchanged. -/
theorem approve_claim_no_match (st : DLFSState) (cid : String)
    (h : ∀ c ∈ st.claims, c.claim_id ≠ cid) :
    approve_claim st cid = (st, false) := by
  unfold approve_claim
  rw [approve_scan_none st.items cid st.claims h]

/-- C4 witness: the spec's example `CLM-0000` on a freshly bootstrapped
store. -/
theorem approve_claim_no_match_witness :
    approve_claim state0 "CLM-0000" = (state0, false) :=
  approve_claim_no_match state0 "CLM-0000" (by decide)

/-- C6: `login` returns the first account in insertion order whose email
and password both equal the given values exactly, and returns `none` (not
a failure) exactly when no account matches; on the seeded accounts the
admin credentials return the seeded admin and a wrong password returns
`none`. -/
theorem login_first_match (users : List User) (email password : String) :
    (∀ u, login users email password = some u →
        u.email = email ∧ u.password = password ∧
        ∃ l1 l2, users = l1 ++ u :: l2 ∧
          ∀ v ∈ l1, ¬(v.email = email ∧ v.password = password)) ∧
    (login users email password = none ↔
        ∀ v ∈ users, ¬(v.email = email ∧ v.password = password)) ∧
    login state0.users "admin@dlfs.com" "admin123" = some seedAdmin ∧
    login state0.users "admin@dlfs.com" "wrong" = none := by
  refine ⟨?_, ?_, by decide, by decide⟩
  · induction users with
    | nil => intro u hu; simp [login] at hu
    | cons w rest ih =>
      intro u hu
      simp only [login] at hu
      by_cases hw : (w.email == email && w.password == password) = true
      · rw [if_pos hw] at hu
        cases hu
        rw [Bool.and_eq_true, beq_iff_eq, beq_iff_eq] at hw
        exact ⟨hw.1, hw.2, [], rest, rfl, by simp⟩
      · rw [if_neg hw] at hu
        obtain ⟨h1, h2, l1, l2, hl, hprev⟩ := ih u hu
        refine ⟨h1, h2, w :: l1, l2, by rw [hl]; rfl, ?_⟩
        intro v hv
        rcases List.mem_cons.mp hv with rfl | hv2
        · rintro ⟨he, hp⟩
          exact hw (by simp [he, hp])
        · exact hprev v hv2
  · induction users with
    | nil => simp [login]
    | cons w rest ih =>
      simp only [login]
      by_cases hw : (w.email == email && w.password == password) = true
      · rw [if_pos hw]
        constructor
        · intro hcontra; cases hcontra
        · intro hall
          exfalso
          rw [Bool.and_eq_true, beq_iff_eq, beq_iff_eq] at hw
          exact hall w (List.mem_cons_self w rest) ⟨hw.1, hw.2⟩
      · rw [if_neg hw, ih]
        constructor
        · intro hall v hv
          rcases List.mem_cons.mp hv with rfl | hv2
          · rintro ⟨he, hp⟩
            exact hw (by simp [he, hp])
          · exact hall v hv2
        · intro hall v hv
          exact hall v (List.mem_cons_of_mem w hv)

/-- C6 witness: the seeded admin returned by the concrete successful
login indeed carries the queried credentials. -/
theorem login_first_match_witness :
    seedAdmin.email = "admin@dlfs.com" ∧ seedAdmin.password = "admin123" := by
  have h := (login_first_match state0.users "admin@dlfs.com" "admin123").1
    seedAdmin (by decide)
  exact ⟨h.1, h.2.1⟩

/-- C7: `report_item` appends one new item holding the given name,
description, location and item type, with status `reported` and id
`ITEM-` followed by the decimal form of the number drawn from 1000–9999,
persists the items collection, returns that id, leaves the other
collections alone, and ignores the reporter id — the result is
independent of it, so the reporter is not attached to the stored record. -/
theorem report_item_appends_reported (st : DLFSState)
    (nm ds loc ty : String) (uid : PyId) (n : Nat)
    (h : 1000 ≤ n ∧ n ≤ 9999) :
    (report_item st nm ds loc ty uid n).2 = "ITEM-" ++ toString n ∧
    (report_item st nm ds loc ty uid n).1.items =
      st.items ++ [{ item_id := "ITEM-" ++ toString n, name := nm, description := ds, location := loc, item_type := ty, status := "reported" }] ∧
    (report_item st nm ds loc ty uid n).1.disk.items =
      some (.json ((report_item st nm ds loc ty uid n).1.items)) ∧
    (report_item st nm ds loc ty uid n).1.users = st.users ∧
    (report_item st nm ds loc ty uid n).1.claims = st.claims ∧
    (∀ uid2 : PyId, report_item st nm ds loc ty uid2 n =
        report_item st nm ds loc ty uid n) ∧
    (∃ m, 1000 ≤ m ∧ m ≤ 9999 ∧
        (report_item st nm ds loc ty uid n).2 = "ITEM-" ++ toString m) :=
  ⟨rfl, rfl, rfl, rfl, rfl, fun _ => rfl, n, h.1, h.2, rfl⟩

/-- C7 witness: the spec's Wallet example on a freshly bootstrapped
store. -/
theorem report_item_appends_reported_witness :
    (report_item state0 "Wallet" "Black leather" "Library" "lost"
      (.int 2) 1234).2 = "ITEM-" ++ toString 1234 :=
  (report_item_appends_reported state0 "Wallet" "Black leather" "Library"
    "lost" (.int 2) 1234 (by decide)).1

/-- C8: each search operation returns exactly the items whose relevant
field (name, location, item type) contains the query as a
case-insensitive substring — both sides lower-cased, occurrence meaning a
contiguous character run — and preserves insertion order (the result is a
sublist of the items list); after reporting a single `Wallet` item of
type `lost` on a fresh store, searching names for `wall` returns exactly
that item, with item type `lost` and status `reported`. -/
theorem search_filters_substring (st : DLFSState) (q : String) :
    (∀ it, it ∈ search_items_name st q ↔
        it ∈ st.items ∧ strIn (pyLower q) (pyLower it.name) = true) ∧
    (search_items_name st q).Sublist st.items ∧
    (∀ it, it ∈ search_items_location st q ↔
        it ∈ st.items ∧ strIn (pyLower q) (pyLower it.location) = true) ∧
    (search_items_location st q).Sublist st.items ∧
    (∀ it, it ∈ search_items_type st q ↔
        it ∈ st.items ∧ strIn (pyLower q) (pyLower it.item_type) = true) ∧
    (search_items_type st q).Sublist st.items ∧
    (∀ sub s : String, strIn sub s = true ↔
        ∃ l1 l2, s.data = l1 ++ (sub.data ++ l2)) ∧
    search_items_name
        ((report_item state0 "Wallet" "Black leather" "Library" "lost"
          (.int 2) 1234).1) "wall" =
      [{ item_id := "ITEM-1234", name := "Wallet",
         description := "Black leather", location := "Library",
         item_type := "lost", status := "reported" }] := by
  refine ⟨?_, List.filter_sublist _, ?_, List.filter_sublist _, ?_,
    List.filter_sublist _, strIn_iff, by decide⟩
  · intro it; simp [search_items_name, List.mem_filter]
  · intro it; simp [search_items_location, List.mem_filter]
  · intro it; simp [search_items_type, List.mem_filter]

/-- C8 witness: the Wallet search example evaluated through the
theorem. -/
theorem search_filters_substring_witness :
    search_items_name
        ((report_item state0 "Wallet" "Black leather" "Library" "lost"
          (.int 2) 1234).1) "wall" =
      [{ item_id := "ITEM-1234", name := "Wallet",
         description := "Black leather", location := "Library",
         item_type := "lost", status := "reported" }] :=
  (search_filters_substring state0 "wall").2.2.2.2.2.2.2

/-- C9: write-through invariant — assuming disk and memory agree
beforehand, each mutating operation (add_user, report_item, claim_item,
and approve_claim when it returns true) leaves the disk equal to the JSON
dumps of the in-memory collections before returning. -/
theorem write_through (st : DLFSState) (h : consistent st) :
    (∀ uid nm em pw role, ∃ st2,
        add_user st uid nm em pw role = .ok st2 ∧ consistent st2) ∧
    (∀ nm ds loc ty uid n, consistent (report_item st nm ds loc ty uid n).1) ∧
    (∀ uid iid n, consistent (claim_item st uid iid n).1) ∧
    (∀ cid st2, approve_claim st cid = (st2, true) → consistent st2) := by
  unfold consistent at h
  have hu : st.disk.users = some (.json st.users) := by rw [h]
  refine ⟨?_, fun nm ds loc ty uid n => consistent_save_all _,
    fun uid iid n => consistent_save_all _, ?_⟩
  · intro uid nm em pw role
    have hstep : add_user st uid nm em pw role = .ok
        { st with
          users := st.users ++ [{ id := uid, name := nm, email := em, password := pw, role := role }],
          disk := { st.disk with users := save_data (st.users ++ [{ id := uid, name := nm, email := em, password := pw, role := role }]) } } := by
      unfold add_user
      rw [hu]
      rfl
    refine ⟨_, hstep, ?_⟩
    unfold consistent
    rw [h]
    rfl
  · intro cid st2 happ
    unfold approve_claim at happ
    cases hscan : approve_scan st.items cid st.claims with
    | none =>
      rw [hscan] at happ
      simp at happ
    | some r =>
      obtain ⟨cs2, its2⟩ := r
      rw [hscan] at happ
      simp only [Prod.mk.injEq] at happ
      rw [← happ.1]
      exact consistent_save_all _

/-- C9 witness: a concrete mutating call on the bootstrapped store leaves
disk and memory in sync. -/
theorem write_through_witness :
    consistent (claim_item state0 (.int 2) "ITEM-1234" 4321).1 :=
  (write_through state0 (by decide)).2.2.1 (.int 2) "ITEM-1234" 4321

/-- C3: `claim_item` appends a pending claim referencing the given user
and item ids — with no existence check on the item id, since the
statement holds for every item id — and returns the generated claim id;
approving that claim id (fresh among the existing claims) returns true,
turns the claim's status to `approved`, and sets the status of the
matching items to `claimed`; when no item matches the claim's item id the
items are left unchanged while the claim is still approved and true is
returned. -/
theorem claim_approve_lifecycle (st : DLFSState) (uid : PyId) (iid : String)
    (n : Nat) (h : ∀ c ∈ st.claims, c.claim_id ≠ "CLM-" ++ toString n) :
    (claim_item st uid iid n).2 = "CLM-" ++ toString n ∧
    (claim_item st uid iid n).1.claims =
      st.claims ++ [{ claim_id := "CLM-" ++ toString n, user_id := uid, item_id := iid, status := "pending" }] ∧
    (claim_item st uid iid n).1.items = st.items ∧
    (approve_claim (claim_item st uid iid n).1 ("CLM-" ++ toString n)).2 = true ∧
    (approve_claim (claim_item st uid iid n).1 ("CLM-" ++ toString n)).1.claims =
      st.claims ++ [{ claim_id := "CLM-" ++ toString n, user_id := uid, item_id := iid, status := "approved" }] ∧
    (approve_claim (claim_item st uid iid n).1 ("CLM-" ++ toString n)).1.items =
      mark_items_claimed st.items iid ∧
    ((∀ it ∈ st.items, it.item_id ≠ iid) →
      (approve_claim (claim_item st uid iid n).1 ("CLM-" ++ toString n)).1.items = st.items) ∧
    (∀ it ∈ st.items, it.item_id = iid →
      { it with status := "claimed" } ∈
        (approve_claim (claim_item st uid iid n).1 ("CLM-" ++ toString n)).1.items) := by
  have key : approve_scan (claim_item st uid iid n).1.items
      ("CLM-" ++ toString n) (claim_item st uid iid n).1.claims =
      some (st.claims ++ [{ claim_id := "CLM-" ++ toString n, user_id := uid, item_id := iid, status := "approved" }],
            mark_items_claimed st.items iid) := by
    show approve_scan st.items ("CLM-" ++ toString n)
        (st.claims ++ [{ claim_id := "CLM-" ++ toString n, user_id := uid, item_id := iid, status := "pending" }]) = _
    rw [approve_scan_append _ _ _ _ h,
      approve_scan_cons_match st.items ("CLM-" ++ toString n)
        { claim_id := "CLM-" ++ toString n, user_id := uid, item_id := iid, status := "pending" } [] rfl]
    rfl
  have happ := approve_claim_of_scan_some _ _ _ _ key
  refine ⟨rfl, rfl, rfl, by rw [happ], by rw [happ]; rfl, by rw [happ]; rfl, ?_, ?_⟩
  · intro hno
    rw [show (approve_claim (claim_item st uid iid n).1 ("CLM-" ++ toString n)).1.items = mark_items_claimed st.items iid from by rw [happ]; rfl]
    exact mark_items_claimed_no_match st.items iid hno
  · intro it hit hid
    rw [show (approve_claim (claim_item st uid iid n).1 ("CLM-" ++ toString n)).1.items = mark_items_claimed st.items iid from by rw [happ]; rfl]
    exact mark_items_claimed_mem st.items iid it hit hid

/-- C3 witness: the full lifecycle on a fresh store holding one reported
Wallet item. -/
theorem claim_approve_lifecycle_witness :
    (approve_claim (claim_item (report_item state0 "Wallet" "Black leather" "Library" "lost" (.int 2) 1234).1 (.int 2) "ITEM-1234" 5678).1 ("CLM-" ++ toString 5678)).2 = true ∧
    (claim_item (report_item state0 "Wallet" "Black leather" "Library" "lost" (.int 2) 1234).1 (.int 2) "ITEM-1234" 5678).2 = "CLM-" ++ toString 5678 := by
  have h := claim_approve_lifecycle
    (report_item state0 "Wallet" "Black leather" "Library" "lost" (.int 2) 1234).1
    (.int 2) "ITEM-1234" 5678 (by decide)
  exact ⟨h.2.2.2.1, h.1⟩

/-- C10: when some claim matches the given id, `approve_claim` marks
every item whose id equals that claim's item id as `claimed`
unconditionally, whatever the item's current status (so an item already
`approved` or `returned` is moved back to `claimed`), and re-approving
the same claim id afterwards returns true again and repeats the item
update. -/
theorem approve_claim_unconditional (st : DLFSState) (cid : String)
    (c : Claim) (h : st.claims.find? (fun d => d.claim_id == cid) = some c) :
    (approve_claim st cid).2 = true ∧
    (approve_claim st cid).1.items = mark_items_claimed st.items c.item_id ∧
    (∀ it ∈ st.items, it.item_id = c.item_id →
        { it with status := "claimed" } ∈ (approve_claim st cid).1.items) ∧
    (approve_claim (approve_claim st cid).1 cid).2 = true ∧
    (approve_claim (approve_claim st cid).1 cid).1.items =
      mark_items_claimed (approve_claim st cid).1.items c.item_id := by
  obtain ⟨l1, l2, hl, hfalse, htrue⟩ := find_decomp _ _ _ h
  have h1 : ∀ b ∈ l1, b.claim_id ≠ cid := by
    intro b hb
    have hb2 := hfalse b hb
    simp at hb2
    exact hb2
  have hcid : c.claim_id = cid := by simpa using htrue
  have key1 : approve_scan st.items cid st.claims =
      some (l1 ++ { c with status := "approved" } :: l2,
            mark_items_claimed st.items c.item_id) := by
    rw [hl, approve_scan_append _ _ _ _ h1,
      approve_scan_cons_match _ _ _ _ hcid]
    rfl
  have happ := approve_claim_of_scan_some st cid _ _ key1
  have key2 : approve_scan (approve_claim st cid).1.items cid
      (approve_claim st cid).1.claims =
      some (l1 ++ { c with status := "approved" } :: l2,
            mark_items_claimed (approve_claim st cid).1.items c.item_id) := by
    rw [happ]
    show approve_scan (mark_items_claimed st.items c.item_id) cid
        (l1 ++ { c with status := "approved" } :: l2) = _
    rw [approve_scan_append _ _ _ _ h1,
      approve_scan_cons_match _ _ _ _
        (show ({ c with status := "approved" } : Claim).claim_id = cid from hcid)]
    rfl
  have happ2 := approve_claim_of_scan_some (approve_claim st cid).1 cid _ _ key2
  refine ⟨by rw [happ], by rw [happ]; rfl, ?_, by rw [happ2], by rw [happ2]; rfl⟩
  intro it hit hid
  rw [show (approve_claim st cid).1.items = mark_items_claimed st.items c.item_id from by rw [happ]; rfl]
  exact mark_items_claimed_mem st.items c.item_id it hit hid

/-- C10 witness: approving the pending claim on a store whose only item
already has status `returned` moves that item back to `claimed`, and the
update would repeat on re-approval. -/
theorem approve_claim_unconditional_witness :
    (approve_claim wstate "CLM-7777").2 = true ∧
    (approve_claim wstate "CLM-7777").1.items =
      mark_items_claimed wstate.items pendingClaim.item_id ∧
    returnedItem.status = "returned" ∧
    mark_items_claimed wstate.items pendingClaim.item_id =
      [{ returnedItem with status := "claimed" }] := by
  have h := approve_claim_unconditional wstate "CLM-7777" pendingClaim (by decide)
  exact ⟨h.1, h.2.1, rfl, by decide⟩

end DLFS
